import Mathlib

/-!
Verification development for the `google-drive-rooms-pkg` addon: a shallow
embedding of its three actions (`list_documents`, `delete_document`,
`download_document`) and of its configuration validator, together with
theorems settling the specification claims.  Network I/O is modelled by an
oracle `Request → HttpOutcome` supplied by the environment; each action
returns its response envelope together with the list of requests it issued.
-/

set_option maxRecDepth 100000

namespace GDriveRooms

/-- JSON values as delivered by the Drive API and as stored in the
`output.data` payloads of the response envelopes. -/
inductive Json where
  | null : Json
  | str : String → Json
  | num : Int → Json
  | bool : Bool → Json
  | arr : List Json → Json
  | obj : List (String × Json) → Json

/-- Python `dict.get(k)` on a JSON value: a lookup on objects, absent on
everything else. -/
def Json.get? : Json → String → Option Json
  | Json.obj fs, k => fs.lookup k
  | _, _ => Option.none

/-- Python truthiness of a JSON value (empty string, zero, `None`, empty
list, empty dict and `False` are falsy). -/
def Json.truthy : Json → Bool
  | Json.null => false
  | Json.str s => !(s == "")
  | Json.num n => !(n == 0)
  | Json.bool b => b
  | Json.arr xs => !xs.isEmpty
  | Json.obj fs => !fs.isEmpty

/-- The value of an optional JSON field when it is a truthy string, as used
by the `x or y` chains of the action code.  Non-string truthy values do not
occur in the upstream error bodies. -/
def truthyStr : Option Json → Option String
  | Option.some (Json.str s) => if s == "" then Option.none else Option.some s
  | _ => Option.none

/-- Python `opt or default` for string values (`None` and `""` fall through
to the default). -/
def pyOr (o : Option String) (d : String) : String :=
  match o with
  | Option.some s => if s == "" then d else s
  | Option.none => d

/-- Python `int(x)` for the values that appear in the `size` metadata field
(numbers and decimal strings; a non-numeric string raises in Python and does
not occur upstream). -/
def pyInt : Json → Int
  | Json.num n => n
  | Json.str s => (s.toInt?).getD 0
  | Json.bool b => if b then 1 else 0
  | _ => 0

/-- `payload.get("error", dict()).get("message") or
payload.get("error_description")`: the first two tiers of the error-message
extraction shared by the actions. -/
def errMsgPair (payload : Json) : Option String :=
  match truthyStr ((payload.get? "error").bind (fun e => Json.get? e "message")) with
  | Option.some s => Option.some s
  | Option.none => truthyStr (payload.get? "error_description")

/-- The generic bottom-tier error message `HTTP <status>`. -/
def httpStatusMsg (status : Nat) : String := "HTTP " ++ toString status

/- ## Base64 (RFC 4648), as used by `base64.b64encode` on the downloaded
content bytes.  Bytes are natural numbers below 256. -/

/-- The standard base64 alphabet. -/
def b64Alphabet : List Char :=
  ['A', 'B', 'C', 'D', 'E', 'F', 'G', 'H', 'I', 'J', 'K', 'L', 'M',
   'N', 'O', 'P', 'Q', 'R', 'S', 'T', 'U', 'V', 'W', 'X', 'Y', 'Z',
   'a', 'b', 'c', 'd', 'e', 'f', 'g', 'h', 'i', 'j', 'k', 'l', 'm',
   'n', 'o', 'p', 'q', 'r', 's', 't', 'u', 'v', 'w', 'x', 'y', 'z',
   '0', '1', '2', '3', '4', '5', '6', '7', '8', '9', '+', '/']

/-- The alphabet character of a sextet. -/
def b64Char (n : Nat) : Char := b64Alphabet.getD n 'A'

/-- The sextet of an alphabet character. -/
def b64Index (c : Char) : Nat := b64Alphabet.indexOf c

/-- First byte reassembled from two sextet characters. -/
def dByte1 (c1 c2 : Char) : Nat := b64Index c1 * 4 + b64Index c2 / 16

/-- Second byte reassembled from the second and third sextet characters. -/
def dByte2 (c2 c3 : Char) : Nat := b64Index c2 % 16 * 16 + b64Index c3 / 4

/-- Third byte reassembled from the third and fourth sextet characters. -/
def dByte3 (c3 c4 : Char) : Nat := b64Index c3 % 4 * 64 + b64Index c4

/-- Base64 encoding of a byte list, with `=` padding. -/
def b64encodeList : List Nat → List Char
  | [] => []
  | [a] => [b64Char (a / 4), b64Char (a % 4 * 16), '=', '=']
  | [a, b] => [b64Char (a / 4), b64Char (a % 4 * 16 + b / 16), b64Char (b % 16 * 4), '=']
  | a :: b :: c :: rest =>
      b64Char (a / 4) :: b64Char (a % 4 * 16 + b / 16) ::
      b64Char (b % 16 * 4 + c / 64) :: b64Char (c % 64) :: b64encodeList rest

/-- Base64 encoding to a string, as `base64.b64encode(content).decode("ascii")`. -/
def b64encode (bs : List Nat) : String := String.mk (b64encodeList bs)

/-- Base64 decoding of a character list (groups of four characters, `=`
padding at the end only). -/
def b64decodeList : List Char → Option (List Nat)
  | [] => Option.some []
  | c1 :: c2 :: c3 :: c4 :: rest =>
      if c3 == '=' then
        if c4 == '=' && rest.isEmpty then Option.some [dByte1 c1 c2] else Option.none
      else if c4 == '=' then
        if rest.isEmpty then Option.some [dByte1 c1 c2, dByte2 c2 c3] else Option.none
      else
        (b64decodeList rest).map
          (fun bs => dByte1 c1 c2 :: dByte2 c2 c3 :: dByte3 c3 c4 :: bs)
  | _ => Option.none

/-- Base64 decoding of a string. -/
def b64decode (s : String) : Option (List Nat) := b64decodeList s.toList

theorem b64Index_b64Char : ∀ n, n < 64 → b64Index (b64Char n) = n := by decide

theorem b64Char_ne_pad : ∀ n, n < 64 → (b64Char n == '=') = false := by decide

theorem byte1_eq (a b : Nat) (hb : b / 16 < 16) :
    a / 4 * 4 + (a % 4 * 16 + b / 16) / 16 = a := by
  rw [Nat.add_comm (a % 4 * 16) (b / 16),
    Nat.add_mul_div_right _ _ (show 0 < 16 by norm_num), Nat.div_eq_of_lt hb]
  omega

theorem byte2_eq (a b c : Nat) (hb : b / 16 < 16) (hc : c / 64 < 4) :
    (a % 4 * 16 + b / 16) % 16 * 16 + (b % 16 * 4 + c / 64) / 4 = b := by
  rw [Nat.add_comm (a % 4 * 16) (b / 16), Nat.add_mul_mod_self_right,
    Nat.mod_eq_of_lt hb, Nat.add_comm (b % 16 * 4) (c / 64),
    Nat.add_mul_div_right _ _ (show 0 < 4 by norm_num), Nat.div_eq_of_lt hc]
  omega

theorem byte2_tail_eq (a b : Nat) (hb : b / 16 < 16) :
    (a % 4 * 16 + b / 16) % 16 * 16 + b % 16 * 4 / 4 = b := by
  rw [Nat.add_comm (a % 4 * 16) (b / 16), Nat.add_mul_mod_self_right,
    Nat.mod_eq_of_lt hb, Nat.mul_div_cancel _ (show 0 < 4 by norm_num)]
  omega

theorem byte3_eq (b c : Nat) (hc : c / 64 < 4) :
    (b % 16 * 4 + c / 64) % 4 * 64 + c % 64 = c := by
  rw [Nat.add_comm (b % 16 * 4) (c / 64), Nat.add_mul_mod_self_right,
    Nat.mod_eq_of_lt hc]
  omega

theorem byte1_tail_eq (a : Nat) :
    a / 4 * 4 + a % 4 * 16 / 16 = a := by
  rw [Nat.mul_div_cancel _ (show 0 < 16 by norm_num)]
  omega

theorem b64decodeList_encodeList :
    ∀ bs : List Nat, (∀ x ∈ bs, x < 256) →
      b64decodeList (b64encodeList bs) = Option.some bs := by
  intro bs
  induction bs using b64encodeList.induct with
  | case1 =>
      intro _
      simp [b64encodeList, b64decodeList]
  | case2 a =>
      intro h
      have ha : a < 256 := h a (by simp)
      have h1 : a / 4 < 64 := by omega
      have h2 : a % 4 * 16 < 64 := by omega
      simp only [b64encodeList, b64decodeList, if_pos, beq_self_eq_true,
        List.isEmpty_nil, Bool.and_self, if_true]
      unfold dByte1
      rw [b64Index_b64Char _ h1, b64Index_b64Char _ h2, byte1_tail_eq a]
  | case3 a b =>
      intro h
      have ha : a < 256 := h a (by simp)
      have hb : b < 256 := h b (by simp)
      have h1 : a / 4 < 64 := by omega
      have h2 : a % 4 * 16 + b / 16 < 64 := by omega
      have h3 : b % 16 * 4 < 64 := by omega
      have hb16 : b / 16 < 16 := by omega
      simp only [b64encodeList, b64decodeList, b64Char_ne_pad _ h3,
        beq_self_eq_true, List.isEmpty_nil, Bool.and_self, if_true, if_false]
      unfold dByte1 dByte2
      rw [b64Index_b64Char _ h1, b64Index_b64Char _ h2, b64Index_b64Char _ h3,
        byte1_eq a b hb16, byte2_tail_eq a b hb16]
      simp
  | case4 a b c rest ih =>
      intro h
      have ha : a < 256 := h a (by simp)
      have hb : b < 256 := h b (by simp)
      have hc : c < 256 := h c (by simp)
      have h1 : a / 4 < 64 := by omega
      have h2 : a % 4 * 16 + b / 16 < 64 := by omega
      have h3 : b % 16 * 4 + c / 64 < 64 := by omega
      have h4 : c % 64 < 64 := by omega
      have hb16 : b / 16 < 16 := by omega
      have hc64 : c / 64 < 4 := by omega
      have hrest : ∀ x ∈ rest, x < 256 := by
        intro x hx
        exact h x (by simp [hx])
      simp only [b64encodeList, b64decodeList, b64Char_ne_pad _ h3,
        b64Char_ne_pad _ h4, if_false, ih hrest, Option.map_some]
      unfold dByte1 dByte2 dByte3
      rw [b64Index_b64Char _ h1, b64Index_b64Char _ h2, b64Index_b64Char _ h3,
        b64Index_b64Char _ h4, byte1_eq a b hb16, byte2_eq a b c hb16 hc64,
        byte3_eq b c hc64]
      simp

theorem b64decode_b64encode (bs : List Nat) (h : ∀ x ∈ bs, x < 256) :
    b64decode (b64encode bs) = Option.some bs :=
  b64decodeList_encodeList bs h

/- ## HTTP model.  An upstream response carries the status, the parsed JSON
body (`Option.none` models a body whose `.json()` raises `ValueError`), the
raw text, the `Content-Type` header and the raw content bytes.  A call either
yields a response or raises a `requests.exceptions.RequestException`,
modelled with its class name and detail text. -/

structure HttpResponse where
  status : Nat
  body : Option Json
  text : String
  contentType : Option String
  content : List Nat

inductive HttpOutcome where
  | exn : String → String → HttpOutcome
  | resp : HttpResponse → HttpOutcome

/-- The outbound requests the three actions can issue, identified by their
endpoint and the parameters the claims talk about. -/
inductive Request where
  | listFiles : String → Nat → Request
  | patchTrash : String → Request
  | metadata : String → Request
  | exportFile : String → String → Request
  | mediaFile : String → Request

abbrev is2xx (c : Nat) : Prop := 200 ≤ c ∧ c < 300

/-- The `tokens` member of every response envelope. -/
structure TokensSchema where
  stepAmount : Nat
  totalCurrentAmount : Nat
deriving DecidableEq

/-- The uniform response envelope `(output.data, tokens, message, code)`.
Every return statement of the actions sets `output.data`, so it is modelled
as the key/value list directly. -/
structure ActionResponse where
  data : List (String × Json)
  tokens : TokensSchema
  message : String
  code : Nat

/-- The addon configuration.  `page_size` and `max_page_size` are declared
fields with defaults 100 and 1000; `max_download_size_mb` is an extra field
(the model allows extras), read back through
`getattr(config, "max_download_size_mb", 50)`. -/
structure CustomAddonConfig where
  secrets : List (String × String)
  page_size : Nat
  max_page_size : Nat
  max_download_size_mb : Option Nat

/-- Python truthiness of an optional string (`None` and `""` are falsy). -/
def pyTruthyOptStr : Option String → Bool
  | Option.some s => !(s == "")
  | Option.none => false

/-- `config.secrets.get("google_drive_access_token")`. -/
def accessToken (cfg : CustomAddonConfig) : Option String :=
  cfg.secrets.lookup "google_drive_access_token"

/-- Whether the actions' `if not access_token` check passes.
`config.get_required_secrets()` constructs a literal and never raises, so
the 500 configuration-error branch of the actions is unreachable and is not
modelled. -/
def tokenOk (cfg : CustomAddonConfig) : Bool := pyTruthyOptStr (accessToken cfg)

def missingFileIdMsg : String := "Missing required parameter: fileId."

def missingTokenMsg : String := "Missing 'google_drive_access_token' in secrets."

/-- An envelope whose data is a single `error` entry, as built by all the
simple error returns. -/
def errorEnvelope (msg : String) (tk : TokensSchema) (code : Nat) : ActionResponse :=
  ⟨[("error", Json.str msg)], tk, msg, code⟩

/-- The query string built by `list_documents`. -/
def listQuery (folder_id : String) (include_trashed : Bool) : String :=
  "'" ++ folder_id ++ "' in parents and trashed=" ++
    (if include_trashed then "true" else "false")

/-- `payload = resp.json()` with the `except ValueError` fallback
`payload = dict(raw=resp.text)` of the list and delete actions. -/
def payloadOrRaw (r : HttpResponse) : Json :=
  match r.body with
  | Option.some j => j
  | Option.none => Json.obj [("raw", Json.str r.text)]

/-- The non-2xx message extraction of the list and delete actions: the
`error.message` / `error_description` pair when the payload is a dict,
then the generic `HTTP <status>`. -/
def dictErrMsg (payload : Json) (status : Nat) : String :=
  pyOr (match payload with
        | Json.obj _ => errMsgPair payload
        | _ => Option.none)
    (httpStatusMsg status)

/-- `list_documents(config, folder_id, include_trashed)`.  Returns the
envelope together with the list of requests issued. -/
def list_documents (cfg : CustomAddonConfig) (oracle : Request → HttpOutcome)
    (folder_id : String) (include_trashed : Bool) :
    ActionResponse × List Request :=
  let tokens : TokensSchema := ⟨200, 200⟩
  if tokenOk cfg = false then
    (errorEnvelope missingTokenMsg tokens 401, [])
  else
    let req := Request.listFiles (listQuery folder_id include_trashed) cfg.page_size
    match oracle req with
    | HttpOutcome.exn cls detail =>
        (⟨[("error", Json.str detail)], ⟨0, 0⟩,
          "Request failed: " ++ cls ++ ": " ++ detail, 503⟩, [req])
    | HttpOutcome.resp r =>
        let payload := payloadOrRaw r
        if is2xx r.status then
          let files : List Json :=
            match payload.get? "files" with
            | Option.some (Json.arr xs) => xs
            | _ => []
          (⟨[("files", Json.arr files), ("count", Json.num files.length)],
            tokens, toString files.length ++ " fichier(s) récupéré(s).",
            r.status⟩, [req])
        else
          let msg := dictErrMsg payload r.status
          let data : List (String × Json) :=
            match payload with
            | Json.obj fs => fs
            | _ => [("error", Json.str msg)]
          (⟨data, ⟨0, 0⟩, msg, r.status⟩, [req])

/-- `delete_document(config, fileId)`. -/
def delete_document (cfg : CustomAddonConfig) (oracle : Request → HttpOutcome)
    (fileId : String) : ActionResponse × List Request :=
  let tokens : TokensSchema := ⟨100, 100⟩
  if fileId = "" then
    (errorEnvelope missingFileIdMsg tokens 400, [])
  else if tokenOk cfg = false then
    (errorEnvelope missingTokenMsg tokens 401, [])
  else
    let req := Request.patchTrash fileId
    match oracle req with
    | HttpOutcome.exn cls detail =>
        (⟨[("error", Json.str detail)], ⟨0, 0⟩,
          "Request failed: " ++ cls ++ ": " ++ detail, 503⟩, [req])
    | HttpOutcome.resp r =>
        let payload := payloadOrRaw r
        if is2xx r.status then
          (⟨[("trashed", Json.bool true), ("file", payload)], tokens,
            "File moved to trash successfully", r.status⟩, [req])
        else
          let msg := dictErrMsg payload r.status
          (⟨[("error", Json.str msg)], ⟨0, 0⟩, msg, r.status⟩, [req])

/- ## Download action. -/

/-- `int(metadata.get("size", 0)) if metadata.get("size") else None`:
a falsy declared size (absent, `None`, `0`, `""`) yields `Option.none`. -/
def fileSizeBytes (md : Json) : Option Int :=
  match md.get? "size" with
  | Option.some v => if v.truthy then Option.some (pyInt v) else Option.none
  | Option.none => Option.none

/-- A string metadata field with its Python `.get` default (non-string
values do not occur upstream). -/
def strField (md : Json) (k d : String) : String :=
  match md.get? k with
  | Option.some (Json.str s) => s
  | _ => d

def fileName (md : Json) : String := strField md "name" "unknown"

def fileMime (md : Json) : String := strField md "mimeType" ""

/-- `getattr(config, "max_download_size_mb", 50)`. -/
def maxDownloadMb (cfg : CustomAddonConfig) : Nat :=
  cfg.max_download_size_mb.getD 50

/-- `max_size_bytes = max_size_mb * 1024 * 1024`. -/
def maxSizeBytes (cfg : CustomAddonConfig) : Nat := maxDownloadMb cfg * 1024 * 1024

/-- `file_size_bytes and file_size_bytes > max_size_bytes`. -/
def sizeLimitHit (cfg : CustomAddonConfig) (md : Json) : Bool :=
  match fileSizeBytes md with
  | Option.some n => !(n == 0) && decide ((maxSizeBytes cfg : Int) < n)
  | Option.none => false

/-- Fixed-point rendering of `n / 1024 / 1024` with two decimals, standing
in for the Python `:.2f` float formatting of the size message (the two agree
except for float rounding at ties, which no claim depends on). -/
def formatMB (n : Int) : String :=
  let h : Int := n * 100 / (1024 * 1024)
  toString (h / 100) ++ "." ++
    (if h % 100 < 10 then "0" ++ toString (h % 100) else toString (h % 100))

def sizeExceededMsg (cfg : CustomAddonConfig) (md : Json) (n : Int) : String :=
  "File '" ++ fileName md ++ "' size (" ++ formatMB n ++
    " MB) exceeds maximum allowed size (" ++ toString (maxDownloadMb cfg) ++ " MB)"

/-- The 413 envelope of the size-limit rejection. -/
def env413 (cfg : CustomAddonConfig) (md : Json) (n : Int) : ActionResponse :=
  ⟨[("error", Json.str (sizeExceededMsg cfg md n)),
    ("file_size_bytes", Json.num n),
    ("max_size_bytes", Json.num (maxSizeBytes cfg)),
    ("file_name", Json.str (fileName md))],
   ⟨0, 0⟩, sizeExceededMsg cfg md n, 413⟩

/-- The metadata-fetch error message: `error.message` from the JSON body
when it is a truthy string, else the fixed `"Failed to fetch file metadata"`
(also used when the body is not JSON). -/
def metaFallbackMsg (body : Option Json) : String :=
  match body with
  | Option.some p =>
      pyOr (truthyStr ((p.get? "error").bind (fun e => Json.get? e "message")))
        "Failed to fetch file metadata"
  | Option.none => "Failed to fetch file metadata"

/-- Python `s.startswith(p)`, computed on the character lists. -/
def pyStartsWith (s p : String) : Bool := p.toList.isPrefixOf s.toList

/-- The content request chosen by the MIME-type branch: export (with
`export_mime_type or "text/plain"`) for `application/vnd.google-apps.*`
files, direct media download otherwise. -/
def contentRequest (fileId : String) (emt : Option String) (mime : String) :
    Request :=
  if pyStartsWith mime "application/vnd.google-apps." then
    Request.exportFile fileId (pyOr emt "text/plain")
  else
    Request.mediaFile fileId

/-- The content-fetch error message: the `error.message` /
`error_description` pair from a JSON dict body (a non-dict JSON body raises
in Python and does not occur upstream), else `resp.text[:200]` when the body
is not JSON and the text is nonempty, else `HTTP <status>`. -/
def contentErrMsg (r : HttpResponse) : String :=
  pyOr (match r.body with
        | Option.some p =>
            match p with
            | Json.obj _ => errMsgPair p
            | _ => Option.none
        | Option.none =>
            if r.text == "" then Option.none
            else Option.some (String.mk (r.text.toList.take 200)))
    (httpStatusMsg r.status)

/-- Python `None` becomes JSON `null` in a payload. -/
def jsonOfOptStr : Option String → Json
  | Option.some s => Json.str s
  | Option.none => Json.null

/-- The 2xx success envelope of the download: the payload echoes the raw
caller-supplied `export_mime_type` parameter. -/
def successDownloadEnv (fileId : String) (emt : Option String)
    (r : HttpResponse) : ActionResponse :=
  ⟨[("fileId", Json.str fileId),
    ("content_base64", Json.str (b64encode r.content)),
    ("size_bytes", Json.num r.content.length),
    ("content_type", Json.str (r.contentType.getD "application/octet-stream")),
    ("export_mime_type", jsonOfOptStr emt)],
   ⟨150, 150⟩,
   "File downloaded successfully (" ++ toString r.content.length ++ " bytes)",
   r.status⟩

/-- The content-fetch step of the download. -/
def downloadContent (fileId : String) (emt : Option String) (metaReq req : Request)
    (outcome : HttpOutcome) : ActionResponse × List Request :=
  match outcome with
  | HttpOutcome.exn cls detail =>
      (⟨[("error", Json.str detail)], ⟨0, 0⟩,
        "Request failed: " ++ cls ++ ": " ++ detail, 503⟩, [metaReq, req])
  | HttpOutcome.resp r =>
      if is2xx r.status then
        (successDownloadEnv fileId emt r, [metaReq, req])
      else
        (⟨[("error", Json.str (contentErrMsg r))], ⟨0, 0⟩, contentErrMsg r,
          r.status⟩, [metaReq, req])

/-- The size check and content fetch, with the parsed metadata in hand. -/
def downloadWithMeta (cfg : CustomAddonConfig) (oracle : Request → HttpOutcome)
    (fileId : String) (emt : Option String) (md : Json) :
    ActionResponse × List Request :=
  if sizeLimitHit cfg md then
    (env413 cfg md ((fileSizeBytes md).getD 0), [Request.metadata fileId])
  else
    let req := contentRequest fileId emt (fileMime md)
    downloadContent fileId emt (Request.metadata fileId) req (oracle req)

/-- `download_document(config, fileId, export_mime_type)`.  The metadata
fetch rejects any status other than 200; on 200 the body is parsed (a
non-JSON 200 body raises in Python and does not occur upstream, modelled by
the empty-object default). -/
def download_document (cfg : CustomAddonConfig) (oracle : Request → HttpOutcome)
    (fileId : String) (emt : Option String) : ActionResponse × List Request :=
  let tokens : TokensSchema := ⟨150, 150⟩
  if fileId = "" then
    (errorEnvelope missingFileIdMsg tokens 400, [])
  else if tokenOk cfg = false then
    (errorEnvelope missingTokenMsg tokens 401, [])
  else
    match oracle (Request.metadata fileId) with
    | HttpOutcome.exn cls detail =>
        (⟨[("error", Json.str detail)], ⟨0, 0⟩,
          "Metadata request failed: " ++ cls ++ ": " ++ detail, 503⟩,
         [Request.metadata fileId])
    | HttpOutcome.resp r =>
        if r.status = 200 then
          downloadWithMeta cfg oracle fileId emt (r.body.getD (Json.obj []))
        else
          (⟨[("error", Json.str (metaFallbackMsg r.body))], ⟨0, 0⟩,
            metaFallbackMsg r.body, r.status⟩, [Request.metadata fileId])

/- ## Configuration construction (`CustomAddonConfig` with its
`validate_google_drive_secrets` model validator). -/

/-- The single required secret key, from `get_required_secrets`. -/
def required_secret_keys : List String := ["google_drive_access_token"]

/-- `[k for k in required_secret_keys if not self.secrets.get(k)]`. -/
def missingSecrets (secrets : List (String × String)) : List String :=
  required_secret_keys.filter (fun k => !(pyTruthyOptStr (secrets.lookup k)))

/-- Python `repr` of a list of strings, as rendered into the f-string of the
validation error. -/
def pyListRepr (xs : List String) : String :=
  "[" ++ String.intercalate ", " (xs.map (fun s => "'" ++ s ++ "'")) ++ "]"

def missingSecretsMsg (missing : List String) : String :=
  "Missing Google Drive secrets: " ++ pyListRepr missing ++
    ". Put your OAuth access token under these keys in `secrets`."

/-- Constructing a `CustomAddonConfig` from a secrets map, running the
model validator; declared numeric fields keep their defaults here since no
claim varies them at construction. -/
def mkCustomAddonConfig (secrets : List (String × String)) :
    Except String CustomAddonConfig :=
  let missing := missingSecrets secrets
  if missing.isEmpty then
    Except.ok ⟨secrets, 100, 1000, Option.none⟩
  else
    Except.error (missingSecretsMsg missing)

/- ## Spec-side definitions, written from the specification's words, for the
refinement comparisons. -/

/-- Modelled from the spec: the uniform three-tier fallback the error
taxonomy prescribes for every remote error — "structured error message →
description field → generic HTTP status". -/
def specThreeTierMsg (payload : Json) (status : Nat) : String :=
  pyOr (match truthyStr ((payload.get? "error").bind (fun e => Json.get? e "message")) with
        | Option.some s => Option.some s
        | Option.none => truthyStr (payload.get? "error_description"))
    (httpStatusMsg status)

/-- Modelled from the spec: the three-tier fallback applied to a raw
upstream body of any shape — a body that is not JSON (or not an object)
carries no structured `error.message` or `error_description`, so both upper
tiers are empty and the extraction falls to the generic `HTTP <status>`. -/
def specThreeTierBody (body : Option Json) (status : Nat) : String :=
  match body with
  | Option.some p => specThreeTierMsg p status
  | Option.none => httpStatusMsg status

/-- The download content fetch's amended message discipline: the three-tier
fallback on JSON bodies, but for a non-JSON body the truncated raw text
(first 200 characters) when non-empty, else the generic `HTTP <status>`. -/
def specContentTierMsg (r : HttpResponse) : String :=
  match r.body with
  | Option.some p => specThreeTierMsg p r.status
  | Option.none =>
      pyOr (if r.text == "" then Option.none
            else Option.some (String.mk (r.text.toList.take 200)))
        (httpStatusMsg r.status)

/- ## Concrete fixtures used by witnesses and counterexamples. -/

/-- A configuration whose secrets hold a non-empty access token. -/
def cfg0 : CustomAddonConfig :=
  ⟨[("google_drive_access_token", "tok")], 100, 1000, Option.none⟩

/-- Metadata of a 200 MiB binary file. -/
def mdBig : Json :=
  Json.obj [("id", Json.str "f"), ("name", Json.str "big.bin"),
    ("size", Json.num 209715200),
    ("mimeType", Json.str "application/octet-stream")]

/-- Every request answers 200 with the big-file metadata. -/
def oracleBig : Request → HttpOutcome :=
  fun _ => HttpOutcome.resp ⟨200, Option.some mdBig, "", Option.none, []⟩

/-- Metadata of a Google-native document (no declared size). -/
def mdDoc : Json :=
  Json.obj [("id", Json.str "f"), ("name", Json.str "Doc"),
    ("mimeType", Json.str "application/vnd.google-apps.document")]

/-- Metadata of a binary PNG file. -/
def mdPng : Json :=
  Json.obj [("id", Json.str "f"), ("name", Json.str "img"),
    ("mimeType", Json.str "image/png")]

/-- A 200 content response carrying the bytes of "Hi". -/
def contentHi : HttpResponse :=
  ⟨200, Option.none, "", Option.some "text/plain", [72, 105]⟩

/-- Metadata fetch answers 200 with the native-document metadata; the
content fetch succeeds with the "Hi" bytes. -/
def oracleDoc : Request → HttpOutcome :=
  fun req =>
    match req with
    | Request.metadata _ => HttpOutcome.resp ⟨200, Option.some mdDoc, "", Option.none, []⟩
    | _ => HttpOutcome.resp contentHi

/-- Metadata fetch answers 200 with the PNG metadata; the content fetch
fails with 500 and a non-JSON body. -/
def oraclePngErr : Request → HttpOutcome :=
  fun req =>
    match req with
    | Request.metadata _ => HttpOutcome.resp ⟨200, Option.some mdPng, "", Option.none, []⟩
    | _ => HttpOutcome.resp ⟨500, Option.none, "boom", Option.none, []⟩

/-- Every request answers 201 with an empty JSON object. -/
def oracle201 : Request → HttpOutcome :=
  fun _ => HttpOutcome.resp ⟨201, Option.some (Json.obj []), "", Option.none, []⟩

/-- Every request answers 404 with an empty JSON object. -/
def oracle404empty : Request → HttpOutcome :=
  fun _ => HttpOutcome.resp ⟨404, Option.some (Json.obj []), "", Option.none, []⟩

/-- Every request answers 404 with a body holding only `error_description`. -/
def oracle404desc : Request → HttpOutcome :=
  fun _ => HttpOutcome.resp
    ⟨404, Option.some (Json.obj [("error_description", Json.str "bad token")]),
     "", Option.none, []⟩

/-- Every request raises a transport exception. -/
def oracleExn : Request → HttpOutcome :=
  fun _ => HttpOutcome.exn "ConnectionError" "boom"

/- ## Helper lemmas shared by the claim theorems. -/

theorem list_tokens_diag (cfg : CustomAddonConfig) (oracle : Request → HttpOutcome)
    (folder : String) (inc : Bool) :
    (list_documents cfg oracle folder inc).fst.tokens.stepAmount =
      (list_documents cfg oracle folder inc).fst.tokens.totalCurrentAmount := by
  simp only [list_documents, errorEnvelope]
  split
  · rfl
  · cases oracle (Request.listFiles (listQuery folder inc) cfg.page_size) with
    | exn cls detail => rfl
    | resp r =>
        dsimp only
        by_cases h2 : is2xx r.status
        · rw [if_pos h2]
        · rw [if_neg h2]

theorem delete_tokens_diag (cfg : CustomAddonConfig) (oracle : Request → HttpOutcome)
    (fid : String) :
    (delete_document cfg oracle fid).fst.tokens.stepAmount =
      (delete_document cfg oracle fid).fst.tokens.totalCurrentAmount := by
  simp only [delete_document, errorEnvelope]
  split
  · rfl
  · split
    · rfl
    · cases oracle (Request.patchTrash fid) with
      | exn cls detail => rfl
      | resp r =>
        dsimp only
        by_cases h2 : is2xx r.status
        · rw [if_pos h2]
        · rw [if_neg h2]

theorem download_tokens_diag (cfg : CustomAddonConfig) (oracle : Request → HttpOutcome)
    (fid : String) (emt : Option String) :
    (download_document cfg oracle fid emt).fst.tokens.stepAmount =
      (download_document cfg oracle fid emt).fst.tokens.totalCurrentAmount := by
  simp only [download_document, downloadWithMeta, downloadContent, errorEnvelope,
    env413, successDownloadEnv]
  split
  · rfl
  · split
    · rfl
    · cases oracle (Request.metadata fid) with
      | exn cls detail => rfl
      | resp r =>
          dsimp only
          by_cases h200 : r.status = 200
          · simp only [if_pos h200]
            split
            · rfl
            · cases oracle (contentRequest fid emt (fileMime (r.body.getD (Json.obj [])))) with
              | exn cls detail => rfl
              | resp cr =>
                  dsimp only
                  by_cases h2 : is2xx cr.status
                  · rw [if_pos h2]
                  · rw [if_neg h2]
          · rw [if_neg h200]

/- ## Claim theorems. -/

/-- C5: for every call to `delete_document` or `download_document` with an
empty (or missing, modelled as empty) `fileId`, the action returns code 400
immediately: the result is a fixed envelope independent of the configuration
(no secret lookup) and the list of issued requests is empty (no network
call). -/
theorem C5_empty_fileId_immediate_400 (cfg : CustomAddonConfig)
    (oracle : Request → HttpOutcome) (emt : Option String) :
    delete_document cfg oracle "" =
      (errorEnvelope missingFileIdMsg ⟨100, 100⟩ 400, []) ∧
    download_document cfg oracle "" emt =
      (errorEnvelope missingFileIdMsg ⟨150, 150⟩ 400, []) :=
  ⟨rfl, rfl⟩

/-- C10: every envelope returned by any of the three actions, on every
success and error path, has `tokens.stepAmount` equal to
`tokens.totalCurrentAmount`. -/
theorem C10_tokens_diagonal (cfg : CustomAddonConfig)
    (oracle : Request → HttpOutcome) (folder : String) (inc : Bool)
    (fid₁ fid₂ : String) (emt : Option String) :
    ((list_documents cfg oracle folder inc).fst.tokens.stepAmount =
      (list_documents cfg oracle folder inc).fst.tokens.totalCurrentAmount) ∧
    ((delete_document cfg oracle fid₁).fst.tokens.stepAmount =
      (delete_document cfg oracle fid₁).fst.tokens.totalCurrentAmount) ∧
    ((download_document cfg oracle fid₂ emt).fst.tokens.stepAmount =
      (download_document cfg oracle fid₂ emt).fst.tokens.totalCurrentAmount) :=
  ⟨list_tokens_diag cfg oracle folder inc, delete_tokens_diag cfg oracle fid₁,
   download_tokens_diag cfg oracle fid₂ emt⟩

/-- C9: construction of the addon configuration fails exactly when the
single required secret `google_drive_access_token` is missing or empty in
the secrets map; the validation error message enumerates every missing key
(the full `missing` list is rendered into it); successful construction
implies a non-empty stored token. -/
theorem C9_config_secret_validation (secrets : List (String × String)) :
    ((∃ cfg, mkCustomAddonConfig secrets = Except.ok cfg) ↔
      pyTruthyOptStr (secrets.lookup "google_drive_access_token") = true) ∧
    (∀ cfg, mkCustomAddonConfig secrets = Except.ok cfg →
      ∃ v, cfg.secrets.lookup "google_drive_access_token" = Option.some v ∧ v ≠ "") ∧
    (∀ e, mkCustomAddonConfig secrets = Except.error e →
      missingSecrets secrets = ["google_drive_access_token"] ∧
      e = missingSecretsMsg ["google_drive_access_token"]) := by
  by_cases ht : pyTruthyOptStr (secrets.lookup "google_drive_access_token") = true
  · have hok : mkCustomAddonConfig secrets =
        Except.ok ⟨secrets, 100, 1000, Option.none⟩ := by
      simp [mkCustomAddonConfig, missingSecrets, required_secret_keys, ht]
    refine ⟨⟨fun _ => ht, fun _ => ⟨_, hok⟩⟩, ?_, ?_⟩
    · intro cfg hcfg
      rw [hok] at hcfg
      cases hcfg
      cases hl : secrets.lookup "google_drive_access_token" with
      | none => rw [hl] at ht; simp [pyTruthyOptStr] at ht
      | some v =>
          refine ⟨v, rfl, ?_⟩
          rw [hl] at ht
          simpa [pyTruthyOptStr] using ht
    · intro e he
      rw [hok] at he
      cases he
  · have ht' : pyTruthyOptStr (secrets.lookup "google_drive_access_token") = false := by
      cases h : pyTruthyOptStr (secrets.lookup "google_drive_access_token")
      · rfl
      · exact absurd h ht
    have hm : missingSecrets secrets = ["google_drive_access_token"] := by
      simp [missingSecrets, required_secret_keys, ht']
    have herr : mkCustomAddonConfig secrets =
        Except.error (missingSecretsMsg ["google_drive_access_token"]) := by
      simp [mkCustomAddonConfig, hm]
    refine ⟨⟨fun h => ?_, fun h => absurd h ht⟩, ?_, ?_⟩
    · obtain ⟨cfg, hcfg⟩ := h
      rw [herr] at hcfg
      cases hcfg
    · intro cfg hcfg
      rw [herr] at hcfg
      cases hcfg
    · intro e he
      rw [herr] at he
      cases he
      exact ⟨hm, rfl⟩

/-- C9 witness: at a secrets map holding a non-empty token, construction
succeeds and the stored token is non-empty. -/
theorem C9_config_secret_validation_witness :
    ∃ cfg, mkCustomAddonConfig [("google_drive_access_token", "tok")] =
      Except.ok cfg :=
  (C9_config_secret_validation [("google_drive_access_token", "tok")]).1.mpr
    (by decide)

/- ## Unfolding helpers for the download action past its input and token
checks. -/

theorem download_unfold (cfg : CustomAddonConfig) (oracle : Request → HttpOutcome)
    (fid : String) (emt : Option String) (hfid : fid ≠ "")
    (htok : tokenOk cfg = true) :
    download_document cfg oracle fid emt =
      (match oracle (Request.metadata fid) with
       | HttpOutcome.exn cls detail =>
           (⟨[("error", Json.str detail)], ⟨0, 0⟩,
             "Metadata request failed: " ++ cls ++ ": " ++ detail, 503⟩,
            [Request.metadata fid])
       | HttpOutcome.resp r =>
           if r.status = 200 then
             downloadWithMeta cfg oracle fid emt (r.body.getD (Json.obj []))
           else
             (⟨[("error", Json.str (metaFallbackMsg r.body))], ⟨0, 0⟩,
               metaFallbackMsg r.body, r.status⟩, [Request.metadata fid])) := by
  simp only [download_document]
  rw [if_neg hfid, htok, if_neg (show ¬(true = false) by simp)]

theorem download_meta200 (cfg : CustomAddonConfig) (oracle : Request → HttpOutcome)
    (fid : String) (emt : Option String) (r : HttpResponse) (hfid : fid ≠ "")
    (htok : tokenOk cfg = true)
    (hmeta : oracle (Request.metadata fid) = HttpOutcome.resp r)
    (h200 : r.status = 200) :
    download_document cfg oracle fid emt =
      downloadWithMeta cfg oracle fid emt (r.body.getD (Json.obj [])) := by
  rw [download_unfold cfg oracle fid emt hfid htok, hmeta]
  dsimp only
  rw [if_pos h200]

theorem downloadContent_trace (fid : String) (emt : Option String)
    (metaReq req : Request) (outcome : HttpOutcome) :
    (downloadContent fid emt metaReq req outcome).snd = [metaReq, req] := by
  unfold downloadContent
  cases outcome with
  | exn cls detail => rfl
  | resp r =>
      dsimp only
      by_cases h : is2xx r.status
      · rw [if_pos h]
      · rw [if_neg h]

/-- C2: with a 200 metadata response whose declared size is known, nonzero
and strictly above the configured ceiling, the download returns 413 with the
measured size, the ceiling and the file name in the payload, and issues no
content-fetch request; a metadata body whose declared size is absent/falsy
or parses to zero does not trigger the limit and the content fetch is
issued. -/
theorem C2_size_limit (cfg : CustomAddonConfig) (oracle : Request → HttpOutcome)
    (fid : String) (emt : Option String) (r : HttpResponse) (md : Json)
    (hfid : fid ≠ "") (htok : tokenOk cfg = true)
    (hmeta : oracle (Request.metadata fid) = HttpOutcome.resp r)
    (h200 : r.status = 200) (hbody : r.body = Option.some md) :
    (∀ n : Int, fileSizeBytes md = Option.some n → (maxSizeBytes cfg : Int) < n →
      (download_document cfg oracle fid emt).fst.code = 413 ∧
      (download_document cfg oracle fid emt).fst.data.lookup "file_size_bytes" =
        Option.some (Json.num n) ∧
      (download_document cfg oracle fid emt).fst.data.lookup "max_size_bytes" =
        Option.some (Json.num (maxSizeBytes cfg)) ∧
      (download_document cfg oracle fid emt).fst.data.lookup "file_name" =
        Option.some (Json.str (fileName md)) ∧
      (download_document cfg oracle fid emt).snd = [Request.metadata fid]) ∧
    ((fileSizeBytes md = Option.none ∨ fileSizeBytes md = Option.some 0) →
      (download_document cfg oracle fid emt).snd =
        [Request.metadata fid, contentRequest fid emt (fileMime md)]) := by
  have hmd : r.body.getD (Json.obj []) = md := by rw [hbody]; rfl
  have hdl : download_document cfg oracle fid emt =
      downloadWithMeta cfg oracle fid emt md := by
    rw [download_meta200 cfg oracle fid emt r hfid htok hmeta h200, hmd]
  constructor
  · intro n hn hgt
    have hn0 : ¬(n = 0) := by
      have : (0 : Int) ≤ (maxSizeBytes cfg : Int) := Int.natCast_nonneg _
      omega
    have hhit : sizeLimitHit cfg md = true := by
      simp [sizeLimitHit, hn, hn0, hgt]
    rw [hdl]
    unfold downloadWithMeta
    rw [if_pos hhit]
    have hgetd : (fileSizeBytes md).getD 0 = n := by rw [hn]; rfl
    rw [hgetd]
    refine ⟨rfl, ?_, ?_, ?_, rfl⟩ <;> simp [env413, List.lookup]
  · intro hun
    have hhit : sizeLimitHit cfg md = false := by
      rcases hun with h | h <;> simp [sizeLimitHit, h]
    rw [hdl]
    unfold downloadWithMeta
    rw [if_neg (by simp [hhit])]
    exact downloadContent_trace fid emt _ _ _

/-- C2 witness: a 200 MiB file against the default 50 MiB ceiling is
rejected with 413, exposing size, ceiling and name, and only the metadata
request is issued. -/
theorem C2_size_limit_witness :
    (download_document cfg0 oracleBig "f" Option.none).fst.code = 413 ∧
    (download_document cfg0 oracleBig "f" Option.none).fst.data.lookup
      "file_size_bytes" = Option.some (Json.num 209715200) ∧
    (download_document cfg0 oracleBig "f" Option.none).fst.data.lookup
      "max_size_bytes" = Option.some (Json.num (maxSizeBytes cfg0)) ∧
    (download_document cfg0 oracleBig "f" Option.none).fst.data.lookup
      "file_name" = Option.some (Json.str (fileName mdBig)) ∧
    (download_document cfg0 oracleBig "f" Option.none).snd =
      [Request.metadata "f"] :=
  (C2_size_limit cfg0 oracleBig "f" Option.none
      ⟨200, Option.some mdBig, "", Option.none, []⟩ mdBig
      (by decide) rfl rfl rfl rfl).1
    209715200 (by decide) (by decide)

theorem download_success (cfg : CustomAddonConfig) (oracle : Request → HttpOutcome)
    (fid : String) (emt : Option String) (r : HttpResponse) (md : Json)
    (cr : HttpResponse) (hfid : fid ≠ "") (htok : tokenOk cfg = true)
    (hmeta : oracle (Request.metadata fid) = HttpOutcome.resp r)
    (h200 : r.status = 200) (hbody : r.body = Option.some md)
    (hsize : sizeLimitHit cfg md = false)
    (hcr : oracle (contentRequest fid emt (fileMime md)) = HttpOutcome.resp cr)
    (h2 : is2xx cr.status) :
    download_document cfg oracle fid emt =
      (successDownloadEnv fid emt cr,
       [Request.metadata fid, contentRequest fid emt (fileMime md)]) := by
  have hmd : r.body.getD (Json.obj []) = md := by rw [hbody]; rfl
  rw [download_meta200 cfg oracle fid emt r hfid htok hmeta h200, hmd]
  unfold downloadWithMeta
  rw [if_neg (by simp [hsize])]
  dsimp only
  unfold downloadContent
  rw [hcr]
  dsimp only
  rw [if_pos h2]

/-- C4: for every successful (2xx) download response, base64-decoding the
`content_base64` field reproduces exactly the upstream byte payload, and
`size_bytes` equals the payload's length. -/
theorem C4_base64_roundtrip (cfg : CustomAddonConfig)
    (oracle : Request → HttpOutcome) (fid : String) (emt : Option String)
    (r : HttpResponse) (md : Json) (cr : HttpResponse)
    (hfid : fid ≠ "") (htok : tokenOk cfg = true)
    (hmeta : oracle (Request.metadata fid) = HttpOutcome.resp r)
    (h200 : r.status = 200) (hbody : r.body = Option.some md)
    (hsize : sizeLimitHit cfg md = false)
    (hcr : oracle (contentRequest fid emt (fileMime md)) = HttpOutcome.resp cr)
    (h2 : is2xx cr.status) (hbytes : ∀ x ∈ cr.content, x < 256) :
    (download_document cfg oracle fid emt).fst.data.lookup "content_base64" =
      Option.some (Json.str (b64encode cr.content)) ∧
    b64decode (b64encode cr.content) = Option.some cr.content ∧
    (download_document cfg oracle fid emt).fst.data.lookup "size_bytes" =
      Option.some (Json.num cr.content.length) ∧
    is2xx (download_document cfg oracle fid emt).fst.code := by
  rw [download_success cfg oracle fid emt r md cr hfid htok hmeta h200 hbody
    hsize hcr h2]
  refine ⟨?_, b64decode_b64encode cr.content hbytes, ?_, ?_⟩
  · simp [successDownloadEnv, List.lookup]
  · simp [successDownloadEnv, List.lookup]
  · simpa [successDownloadEnv] using h2

/-- C4 witness: downloading the native document succeeds with the bytes of
"Hi"; decoding the returned base64 yields them back and the size is 2. -/
theorem C4_base64_roundtrip_witness :
    (download_document cfg0 oracleDoc "f" Option.none).fst.data.lookup
      "content_base64" = Option.some (Json.str (b64encode [72, 105])) ∧
    b64decode (b64encode [72, 105]) = Option.some [72, 105] ∧
    (download_document cfg0 oracleDoc "f" Option.none).fst.data.lookup
      "size_bytes" = Option.some (Json.num ([72, 105] : List Nat).length) ∧
    is2xx (download_document cfg0 oracleDoc "f" Option.none).fst.code :=
  C4_base64_roundtrip cfg0 oracleDoc "f" Option.none
    ⟨200, Option.some mdDoc, "", Option.none, []⟩ mdDoc contentHi
    (by decide) rfl rfl rfl rfl (by decide) (by rfl) (by decide)
    (by decide)

/-- C8 counterexample: exporting a Google-native document with no
caller-supplied `export_mime_type` issues the export request with
`text/plain`, yet the success payload's `export_mime_type` field is null —
not the `text/plain` actually used, contradicting the claim. -/
theorem C8_counterexample :
    (download_document cfg0 oracleDoc "f" Option.none).fst.data.lookup
      "export_mime_type" = Option.some Json.null ∧
    (download_document cfg0 oracleDoc "f" Option.none).snd =
      [Request.metadata "f", Request.exportFile "f" "text/plain"] ∧
    Json.null ≠ Json.str "text/plain" :=
  ⟨by rfl, by rfl, fun h => Json.noConfusion h⟩

/-- C8 (amended): the success payload reports, alongside the base64
content, the payload size and the response's declared content type
(defaulting to `application/octet-stream`), but its `export_mime_type`
field echoes the caller-supplied parameter verbatim (null when none was
given), not the export type actually used for the request. -/
theorem C8_success_payload (cfg : CustomAddonConfig)
    (oracle : Request → HttpOutcome) (fid : String) (emt : Option String)
    (r : HttpResponse) (md : Json) (cr : HttpResponse)
    (hfid : fid ≠ "") (htok : tokenOk cfg = true)
    (hmeta : oracle (Request.metadata fid) = HttpOutcome.resp r)
    (h200 : r.status = 200) (hbody : r.body = Option.some md)
    (hsize : sizeLimitHit cfg md = false)
    (hcr : oracle (contentRequest fid emt (fileMime md)) = HttpOutcome.resp cr)
    (h2 : is2xx cr.status) :
    (download_document cfg oracle fid emt).fst.data =
      [("fileId", Json.str fid),
       ("content_base64", Json.str (b64encode cr.content)),
       ("size_bytes", Json.num cr.content.length),
       ("content_type", Json.str (cr.contentType.getD "application/octet-stream")),
       ("export_mime_type", jsonOfOptStr emt)] ∧
    (download_document cfg oracle fid emt).fst.tokens = ⟨150, 150⟩ ∧
    (download_document cfg oracle fid emt).fst.code = cr.status := by
  rw [download_success cfg oracle fid emt r md cr hfid htok hmeta h200 hbody
    hsize hcr h2]
  exact ⟨rfl, rfl, rfl⟩

/-- C8 witness: the concrete successful export reports size 2, content type
`text/plain` and a null `export_mime_type` echo. -/
theorem C8_success_payload_witness :
    (download_document cfg0 oracleDoc "f" Option.none).fst.data =
      [("fileId", Json.str "f"),
       ("content_base64", Json.str (b64encode [72, 105])),
       ("size_bytes", Json.num ([72, 105] : List Nat).length),
       ("content_type", Json.str "text/plain"),
       ("export_mime_type", jsonOfOptStr Option.none)] ∧
    (download_document cfg0 oracleDoc "f" Option.none).fst.tokens = ⟨150, 150⟩ ∧
    (download_document cfg0 oracleDoc "f" Option.none).fst.code = 200 :=
  C8_success_payload cfg0 oracleDoc "f" Option.none
    ⟨200, Option.some mdDoc, "", Option.none, []⟩ mdDoc contentHi
    (by decide) rfl rfl rfl rfl (by decide) (by rfl) (by decide)

/-- C3 counterexample: with a Google-native document and a caller-supplied
`export_mime_type` equal to the empty string, the outbound export request
carries `text/plain`, not the caller-supplied value `""`, contradicting the
claim's "mimeType equal to the caller-supplied export_mime_type". -/
theorem C3_counterexample :
    (download_document cfg0 oracleDoc "f" (Option.some "")).snd =
      [Request.metadata "f", Request.exportFile "f" "text/plain"] ∧
    ("text/plain" : String) ≠ "" :=
  ⟨by rfl, by decide⟩

/-- C3 (amended): on reaching the content fetch, a
`application/vnd.google-apps.*` MIME type routes to the export endpoint
with the caller-supplied `export_mime_type` when that is a non-empty
string and `text/plain` when it is absent or empty (`export_mime_type or
"text/plain"`); any other MIME type routes to direct media download,
ignoring `export_mime_type`. -/
theorem C3_mime_branch (cfg : CustomAddonConfig) (oracle : Request → HttpOutcome)
    (fid : String) (emt : Option String) (r : HttpResponse) (md : Json)
    (hfid : fid ≠ "") (htok : tokenOk cfg = true)
    (hmeta : oracle (Request.metadata fid) = HttpOutcome.resp r)
    (h200 : r.status = 200) (hbody : r.body = Option.some md)
    (hsize : sizeLimitHit cfg md = false) :
    (pyStartsWith (fileMime md) "application/vnd.google-apps." = true →
      (download_document cfg oracle fid emt).snd =
        [Request.metadata fid, Request.exportFile fid (pyOr emt "text/plain")]) ∧
    (pyStartsWith (fileMime md) "application/vnd.google-apps." = false →
      (download_document cfg oracle fid emt).snd =
        [Request.metadata fid, Request.mediaFile fid]) := by
  have hmd : r.body.getD (Json.obj []) = md := by rw [hbody]; rfl
  have hdl : download_document cfg oracle fid emt =
      downloadWithMeta cfg oracle fid emt md := by
    rw [download_meta200 cfg oracle fid emt r hfid htok hmeta h200, hmd]
  constructor <;> intro hsw <;> rw [hdl] <;> unfold downloadWithMeta <;>
    rw [if_neg (by simp [hsize])]
  · have hreq : contentRequest fid emt (fileMime md) =
        Request.exportFile fid (pyOr emt "text/plain") := by
      unfold contentRequest
      rw [if_pos hsw]
    rw [downloadContent_trace, hreq]
  · have hreq : contentRequest fid emt (fileMime md) = Request.mediaFile fid := by
      unfold contentRequest
      rw [if_neg (by simp [hsw])]
    rw [downloadContent_trace, hreq]

/-- C3 witness: a Google-native document with `export_mime_type =
"application/pdf"` issues the export request carrying `application/pdf`. -/
theorem C3_mime_branch_witness :
    (download_document cfg0 oracleDoc "f" (Option.some "application/pdf")).snd =
      [Request.metadata "f", Request.exportFile "f" "application/pdf"] := by
  have h := (C3_mime_branch cfg0 oracleDoc "f" (Option.some "application/pdf")
    ⟨200, Option.some mdDoc, "", Option.none, []⟩ mdDoc
    (by decide) rfl rfl rfl rfl (by decide)).1 (by decide)
  simpa [pyOr] using h

/-- C7 counterexample: a metadata response with status 201 — inside
[200,300), which the claim says proceeds to the size check and content
fetch — is instead treated as terminal: the action returns an error
envelope with code 201 and issues no further request. -/
theorem C7_counterexample :
    (download_document cfg0 oracle201 "f" Option.none).fst.code = 201 ∧
    is2xx 201 ∧
    ((download_document cfg0 oracle201 "f" Option.none).fst.data.lookup
      "error").isSome = true ∧
    (download_document cfg0 oracle201 "f" Option.none).snd =
      [Request.metadata "f"] :=
  ⟨by rfl, ⟨by norm_num, by norm_num⟩, by rfl, by rfl⟩

/-- C7 (amended): the metadata fetch is terminal exactly for statuses other
than 200: a 200 response proceeds to the size check and (when the limit is
not hit) the content fetch, any other status — 2xx ones included — returns
an error envelope carrying that status, and a transport exception during
the metadata fetch returns code 503. -/
theorem C7_metadata_gate (cfg : CustomAddonConfig) (oracle : Request → HttpOutcome)
    (fid : String) (emt : Option String) (hfid : fid ≠ "")
    (htok : tokenOk cfg = true) :
    (∀ cls detail, oracle (Request.metadata fid) = HttpOutcome.exn cls detail →
      (download_document cfg oracle fid emt).fst.code = 503 ∧
      (download_document cfg oracle fid emt).snd = [Request.metadata fid]) ∧
    (∀ r, oracle (Request.metadata fid) = HttpOutcome.resp r → r.status ≠ 200 →
      (download_document cfg oracle fid emt).fst.code = r.status ∧
      ((download_document cfg oracle fid emt).fst.data.lookup "error").isSome
        = true ∧
      (download_document cfg oracle fid emt).snd = [Request.metadata fid]) ∧
    (∀ r md, oracle (Request.metadata fid) = HttpOutcome.resp r →
      r.status = 200 → r.body = Option.some md →
      (sizeLimitHit cfg md = true ∧
        (download_document cfg oracle fid emt).fst.code = 413) ∨
      (sizeLimitHit cfg md = false ∧
        (download_document cfg oracle fid emt).snd =
          [Request.metadata fid, contentRequest fid emt (fileMime md)])) := by
  refine ⟨?_, ?_, ?_⟩
  · intro cls detail hexn
    rw [download_unfold cfg oracle fid emt hfid htok, hexn]
    exact ⟨rfl, rfl⟩
  · intro r hresp hne
    rw [download_unfold cfg oracle fid emt hfid htok, hresp]
    dsimp only
    rw [if_neg hne]
    exact ⟨rfl, by simp [List.lookup], rfl⟩
  · intro r md hresp h200 hbody
    have hmd : r.body.getD (Json.obj []) = md := by rw [hbody]; rfl
    have hdl : download_document cfg oracle fid emt =
        downloadWithMeta cfg oracle fid emt md := by
      rw [download_meta200 cfg oracle fid emt r hfid htok hresp h200, hmd]
    cases hhit : sizeLimitHit cfg md with
    | true =>
        left
        refine ⟨rfl, ?_⟩
        rw [hdl]
        unfold downloadWithMeta
        rw [if_pos hhit]
        rfl
    | false =>
        right
        refine ⟨rfl, ?_⟩
        rw [hdl]
        unfold downloadWithMeta
        rw [if_neg (by simp [hhit])]
        exact downloadContent_trace fid emt _ _ _

/-- C7 witness: a transport exception during the metadata fetch yields 503
after issuing only the metadata request. -/
theorem C7_metadata_gate_witness :
    (download_document cfg0 oracleExn "f" Option.none).fst.code = 503 ∧
    (download_document cfg0 oracleExn "f" Option.none).snd =
      [Request.metadata "f"] :=
  (C7_metadata_gate cfg0 oracleExn "f" Option.none (by decide) rfl).1
    "ConnectionError" "boom" rfl

theorem list_error_case (cfg : CustomAddonConfig) (oracle : Request → HttpOutcome)
    (folder : String) (inc : Bool) (r : HttpResponse)
    (htok : tokenOk cfg = true)
    (hresp : oracle (Request.listFiles (listQuery folder inc) cfg.page_size) =
      HttpOutcome.resp r)
    (h2 : ¬ is2xx r.status) :
    (list_documents cfg oracle folder inc).fst.code = r.status ∧
    (list_documents cfg oracle folder inc).fst.message =
      dictErrMsg (payloadOrRaw r) r.status := by
  simp only [list_documents]
  rw [htok, if_neg (show ¬(true = false) by simp), hresp]
  dsimp only
  rw [if_neg h2]
  exact ⟨rfl, rfl⟩

theorem delete_error_case (cfg : CustomAddonConfig) (oracle : Request → HttpOutcome)
    (fid : String) (r : HttpResponse) (hfid : fid ≠ "")
    (htok : tokenOk cfg = true)
    (hresp : oracle (Request.patchTrash fid) = HttpOutcome.resp r)
    (h2 : ¬ is2xx r.status) :
    (delete_document cfg oracle fid).fst.code = r.status ∧
    (delete_document cfg oracle fid).fst.message =
      dictErrMsg (payloadOrRaw r) r.status := by
  simp only [delete_document]
  rw [if_neg hfid, htok, if_neg (show ¬(true = false) by simp), hresp]
  dsimp only
  rw [if_neg h2]
  exact ⟨rfl, rfl⟩

theorem download_content_error_case (cfg : CustomAddonConfig)
    (oracle : Request → HttpOutcome) (fid : String) (emt : Option String)
    (r : HttpResponse) (md : Json) (cr : HttpResponse)
    (hfid : fid ≠ "") (htok : tokenOk cfg = true)
    (hmeta : oracle (Request.metadata fid) = HttpOutcome.resp r)
    (h200 : r.status = 200) (hbody : r.body = Option.some md)
    (hsize : sizeLimitHit cfg md = false)
    (hcr : oracle (contentRequest fid emt (fileMime md)) = HttpOutcome.resp cr)
    (h2 : ¬ is2xx cr.status) :
    (download_document cfg oracle fid emt).fst.code = cr.status ∧
    (download_document cfg oracle fid emt).fst.message = contentErrMsg cr := by
  have hmd : r.body.getD (Json.obj []) = md := by rw [hbody]; rfl
  rw [download_meta200 cfg oracle fid emt r hfid htok hmeta h200, hmd]
  unfold downloadWithMeta
  rw [if_neg (by simp [hsize])]
  dsimp only
  unfold downloadContent
  rw [hcr]
  dsimp only
  rw [if_neg h2]
  exact ⟨rfl, rfl⟩

theorem dictErrMsg_spec (r : HttpResponse) :
    dictErrMsg (payloadOrRaw r) r.status = specThreeTierBody r.body r.status := by
  cases hb : r.body with
  | none =>
      simp [payloadOrRaw, hb, dictErrMsg, errMsgPair, specThreeTierBody,
        Json.get?, truthyStr, List.lookup, pyOr]
  | some p =>
      have hp : payloadOrRaw r = p := by simp [payloadOrRaw, hb]
      rw [hp]
      cases p <;> rfl

theorem contentErrMsg_spec (r : HttpResponse) :
    contentErrMsg r = specContentTierMsg r := by
  cases hb : r.body with
  | none => simp only [contentErrMsg, specContentTierMsg, hb]
  | some p =>
      simp only [contentErrMsg, specContentTierMsg, hb]
      cases p <;> rfl

/-- C6 counterexample: the claim's uniform three-tier fallback fails twice.
The metadata fetch of `download_document` never consults
`error_description`: a 404 metadata body holding only
`error_description = "bad token"` yields the fixed message
"Failed to fetch file metadata" where the three-tier extraction yields
"bad token".  And the download content fetch substitutes the truncated raw
body text for non-JSON bodies: a 500 with text "boom" yields message "boom"
instead of the generic `HTTP 500`. -/
theorem C6_counterexample :
    (download_document cfg0 oracle404desc "f" Option.none).fst.code = 404 ∧
    (download_document cfg0 oracle404desc "f" Option.none).fst.message =
      "Failed to fetch file metadata" ∧
    specThreeTierMsg (Json.obj [("error_description", Json.str "bad token")])
      404 = "bad token" ∧
    ("Failed to fetch file metadata" : String) ≠ "bad token" ∧
    (download_document cfg0 oraclePngErr "f" Option.none).fst.code = 500 ∧
    (download_document cfg0 oraclePngErr "f" Option.none).fst.message = "boom" ∧
    ("boom" : String) ≠ httpStatusMsg 500 :=
  ⟨by rfl, by decide, by decide, by decide, by rfl, by decide, by decide⟩

/-- C6 (amended): for every non-2xx upstream response — whatever the body's
shape — the list and delete actions mirror the upstream status in `code`
and extract the message with the three-tier fallback (`error.message`, else
`error_description`, else `HTTP <status>`; non-object and non-JSON bodies
carry neither structured field and fall to the generic tier).  The download
content fetch mirrors the status and applies the same three-tier fallback
to JSON bodies, but substitutes the truncated raw body text (when
non-empty) for non-JSON bodies.  The download metadata fetch also mirrors
the status (for any status other than 200) but uses a two-tier fallback:
`error.message`, else the fixed string "Failed to fetch file metadata". -/
theorem C6_remote_error_mirroring (cfg : CustomAddonConfig)
    (oracle : Request → HttpOutcome) :
    (∀ folder inc r, tokenOk cfg = true →
      oracle (Request.listFiles (listQuery folder inc) cfg.page_size) =
        HttpOutcome.resp r →
      ¬ is2xx r.status →
      (list_documents cfg oracle folder inc).fst.code = r.status ∧
      (list_documents cfg oracle folder inc).fst.message =
        specThreeTierBody r.body r.status) ∧
    (∀ fid r, fid ≠ "" → tokenOk cfg = true →
      oracle (Request.patchTrash fid) = HttpOutcome.resp r →
      ¬ is2xx r.status →
      (delete_document cfg oracle fid).fst.code = r.status ∧
      (delete_document cfg oracle fid).fst.message =
        specThreeTierBody r.body r.status) ∧
    (∀ fid emt r md cr, fid ≠ "" → tokenOk cfg = true →
      oracle (Request.metadata fid) = HttpOutcome.resp r → r.status = 200 →
      r.body = Option.some md → sizeLimitHit cfg md = false →
      oracle (contentRequest fid emt (fileMime md)) = HttpOutcome.resp cr →
      ¬ is2xx cr.status →
      (download_document cfg oracle fid emt).fst.code = cr.status ∧
      (download_document cfg oracle fid emt).fst.message =
        specContentTierMsg cr) ∧
    (∀ fid emt r, fid ≠ "" → tokenOk cfg = true →
      oracle (Request.metadata fid) = HttpOutcome.resp r → r.status ≠ 200 →
      (download_document cfg oracle fid emt).fst.code = r.status ∧
      (download_document cfg oracle fid emt).fst.message =
        metaFallbackMsg r.body) := by
  refine ⟨?_, ?_, ?_, ?_⟩
  · intro folder inc r htok hresp h2
    have h := list_error_case cfg oracle folder inc r htok hresp h2
    rw [dictErrMsg_spec r] at h
    exact h
  · intro fid r hfid htok hresp h2
    have h := delete_error_case cfg oracle fid r hfid htok hresp h2
    rw [dictErrMsg_spec r] at h
    exact h
  · intro fid emt r md cr hfid htok hmeta h200 hbody hsize hcr h2
    have h := download_content_error_case cfg oracle fid emt r md cr hfid htok
      hmeta h200 hbody hsize hcr h2
    rw [contentErrMsg_spec cr] at h
    exact h
  · intro fid emt r hfid htok hresp hne
    rw [download_unfold cfg oracle fid emt hfid htok, hresp]
    dsimp only
    rw [if_neg hne]
    exact ⟨rfl, rfl⟩

/-- C6 witness: a 404 list response whose body holds only
`error_description = "bad token"` is mirrored as code 404 with the
three-tier message. -/
theorem C6_remote_error_mirroring_witness :
    (list_documents cfg0 oracle404desc "root" false).fst.code = 404 ∧
    (list_documents cfg0 oracle404desc "root" false).fst.message =
      specThreeTierBody
        (Option.some (Json.obj [("error_description", Json.str "bad token")]))
        404 :=
  (C6_remote_error_mirroring cfg0 oracle404desc).1 "root" false
    ⟨404, Option.some (Json.obj [("error_description", Json.str "bad token")]),
     "", Option.none, []⟩
    rfl rfl (by decide)

theorem list_2xx_success (cfg : CustomAddonConfig) (oracle : Request → HttpOutcome)
    (folder : String) (inc : Bool) :
    is2xx (list_documents cfg oracle folder inc).fst.code →
    (list_documents cfg oracle folder inc).fst.tokens = ⟨200, 200⟩ ∧
    ((list_documents cfg oracle folder inc).fst.data.lookup "files").isSome = true ∧
    ((list_documents cfg oracle folder inc).fst.data.lookup "count").isSome = true := by
  simp only [list_documents, errorEnvelope]
  split
  · intro h
    exact absurd h (by decide)
  · cases oracle (Request.listFiles (listQuery folder inc) cfg.page_size) with
    | exn cls detail =>
        dsimp only
        intro h
        exact absurd h (by decide)
    | resp r =>
        dsimp only
        by_cases h2 : is2xx r.status
        · rw [if_pos h2]
          intro _
          exact ⟨rfl, by simp [List.lookup], by simp [List.lookup]⟩
        · rw [if_neg h2]
          intro h
          exact absurd h h2

theorem delete_inv_parts (cfg : CustomAddonConfig) (oracle : Request → HttpOutcome)
    (fid : String) :
    (is2xx (delete_document cfg oracle fid).fst.code →
      (delete_document cfg oracle fid).fst.tokens = ⟨100, 100⟩ ∧
      ((delete_document cfg oracle fid).fst.data.lookup "trashed").isSome = true) ∧
    (¬ is2xx (delete_document cfg oracle fid).fst.code →
      ((delete_document cfg oracle fid).fst.data.lookup "error").isSome = true) := by
  simp only [delete_document, errorEnvelope]
  split
  · exact ⟨fun h => absurd h (by decide), fun _ => by simp [List.lookup]⟩
  · split
    · exact ⟨fun h => absurd h (by decide), fun _ => by simp [List.lookup]⟩
    · cases oracle (Request.patchTrash fid) with
      | exn cls detail =>
          dsimp only
          exact ⟨fun h => absurd h (by decide), fun _ => by simp [List.lookup]⟩
      | resp r =>
          dsimp only
          by_cases h2 : is2xx r.status
          · rw [if_pos h2]
            exact ⟨fun _ => ⟨rfl, by simp [List.lookup]⟩, fun h => absurd h2 h⟩
          · rw [if_neg h2]
            exact ⟨fun h => absurd h h2, fun _ => by simp [List.lookup]⟩

theorem download_inv_parts (cfg : CustomAddonConfig) (oracle : Request → HttpOutcome)
    (fid : String) (emt : Option String) :
    ((download_document cfg oracle fid emt).fst.data.lookup "error" =
        Option.none →
      is2xx (download_document cfg oracle fid emt).fst.code ∧
      (download_document cfg oracle fid emt).fst.tokens = ⟨150, 150⟩) ∧
    (¬ is2xx (download_document cfg oracle fid emt).fst.code →
      ((download_document cfg oracle fid emt).fst.data.lookup "error").isSome
        = true) := by
  simp only [download_document, downloadWithMeta, downloadContent, errorEnvelope,
    env413, successDownloadEnv]
  split
  · exact ⟨fun h => by simp [List.lookup] at h, fun _ => by simp [List.lookup]⟩
  · split
    · exact ⟨fun h => by simp [List.lookup] at h, fun _ => by simp [List.lookup]⟩
    · cases oracle (Request.metadata fid) with
      | exn cls detail =>
          dsimp only
          exact ⟨fun h => by simp [List.lookup] at h, fun _ => by simp [List.lookup]⟩
      | resp r =>
          dsimp only
          by_cases h200 : r.status = 200
          · rw [if_pos h200]
            split
            · exact ⟨fun h => by simp [List.lookup] at h,
                fun _ => by simp [List.lookup]⟩
            · cases oracle (contentRequest fid emt (fileMime (r.body.getD (Json.obj [])))) with
              | exn cls detail =>
                  dsimp only
                  exact ⟨fun h => by simp [List.lookup] at h,
                    fun _ => by simp [List.lookup]⟩
              | resp cr =>
                  dsimp only
                  by_cases h2 : is2xx cr.status
                  · rw [if_pos h2]
                    exact ⟨fun _ => ⟨h2, rfl⟩, fun h => absurd h2 h⟩
                  · rw [if_neg h2]
                    exact ⟨fun h => by simp [List.lookup] at h,
                      fun _ => by simp [List.lookup]⟩
          · rw [if_neg h200]
            exact ⟨fun h => by simp [List.lookup] at h, fun _ => by simp [List.lookup]⟩

/-- C1 counterexample: the claimed envelope invariant fails three ways on
concrete inputs.  `delete_document` with an empty `fileId` returns code 400
with tokens 100/100, not zeroed.  `list_documents` facing an upstream 404
whose JSON body is the empty object passes that object through as
`output.data`, which then has no `error` key.  And `download_document`
facing a 201 metadata response returns an error envelope (with an `error`
key and zeroed tokens) under the 2xx code 201. -/
theorem C1_counterexample :
    ((delete_document cfg0 oracle404empty "").fst.code = 400 ∧
     (delete_document cfg0 oracle404empty "").fst.tokens.stepAmount = 100) ∧
    ((list_documents cfg0 oracle404empty "root" false).fst.code = 404 ∧
     (list_documents cfg0 oracle404empty "root" false).fst.data.lookup "error" =
       Option.none) ∧
    ((download_document cfg0 oracle201 "x" Option.none).fst.code = 201 ∧
     is2xx 201 ∧
     ((download_document cfg0 oracle201 "x" Option.none).fst.data.lookup
       "error").isSome = true ∧
     (download_document cfg0 oracle201 "x" Option.none).fst.tokens.stepAmount
       = 0) :=
  ⟨⟨by rfl, by rfl⟩, ⟨by rfl, by rfl⟩,
   ⟨by rfl, ⟨by norm_num, by norm_num⟩, by rfl, by rfl⟩⟩

/-- C1 (amended): every envelope whose `output.data` lacks an `error` key
comes from a success path: for delete it implies a 2xx code with the fixed
100/100 tokens, for download a 2xx code with the fixed 150/150 tokens, and
a 2xx list envelope carries the `files`/`count` success payload with
200/200 tokens.  Conversely every non-2xx envelope of delete and download
carries an `error` key; the local 400/401 paths keep the fixed nonzero
tokens, list's non-2xx envelopes reuse the upstream JSON object as data
(so may lack `error`), and download's metadata fetch can return an error
envelope under a 2xx (non-200) code. -/
theorem C1_envelope_invariant (cfg : CustomAddonConfig)
    (oracle : Request → HttpOutcome) (folder : String) (inc : Bool)
    (fid₁ fid₂ : String) (emt : Option String) :
    (is2xx (list_documents cfg oracle folder inc).fst.code →
      (list_documents cfg oracle folder inc).fst.tokens = ⟨200, 200⟩ ∧
      ((list_documents cfg oracle folder inc).fst.data.lookup "files").isSome
        = true ∧
      ((list_documents cfg oracle folder inc).fst.data.lookup "count").isSome
        = true) ∧
    ((is2xx (delete_document cfg oracle fid₁).fst.code →
      (delete_document cfg oracle fid₁).fst.tokens = ⟨100, 100⟩ ∧
      ((delete_document cfg oracle fid₁).fst.data.lookup "trashed").isSome
        = true) ∧
     (¬ is2xx (delete_document cfg oracle fid₁).fst.code →
      ((delete_document cfg oracle fid₁).fst.data.lookup "error").isSome
        = true)) ∧
    (((download_document cfg oracle fid₂ emt).fst.data.lookup "error" =
        Option.none →
      is2xx (download_document cfg oracle fid₂ emt).fst.code ∧
      (download_document cfg oracle fid₂ emt).fst.tokens = ⟨150, 150⟩) ∧
     (¬ is2xx (download_document cfg oracle fid₂ emt).fst.code →
      ((download_document cfg oracle fid₂ emt).fst.data.lookup "error").isSome
        = true)) :=
  ⟨list_2xx_success cfg oracle folder inc, delete_inv_parts cfg oracle fid₁,
   download_inv_parts cfg oracle fid₂ emt⟩

/-- C1 witness: a successful list call carries the `files`/`count` payload
and the fixed 200/200 tokens. -/
theorem C1_envelope_invariant_witness :
    (list_documents cfg0 oracleDoc "root" false).fst.tokens = ⟨200, 200⟩ ∧
    ((list_documents cfg0 oracleDoc "root" false).fst.data.lookup
      "files").isSome = true ∧
    ((list_documents cfg0 oracleDoc "root" false).fst.data.lookup
      "count").isSome = true :=
  (C1_envelope_invariant cfg0 oracleDoc "root" false "f" "f" Option.none).1
    (by decide)

end GDriveRooms
